import Mathlib

/-!
Verification of the companion-file discovery, context merging, dependency
resolution, undefined-variable policy and per-template environment isolation
of the yasha template renderer (src/yasha/main.py, cli.py, util.py).

File names are modelled by their dot-separated components: `FileName.stem` is
the part before the first dot and `FileName.sufs` lists the remaining
components, each standing for a pathlib suffix with its leading dot removed
(so `template.sh.j2` is `⟨"template", ["sh", "j2"]⟩`).  This matches
`name.split('.')[0]` and `Path.suffixes` for ordinary names (no empty
components, no leading or trailing dot).  Directories are lists of path
components measured from a common base, and candidate extensions are likewise
given without their leading dot.  The file system is an oracle
`isFile : FsPath → Bool` answering `Path.is_file()`.
-/

structure FileName where
  stem : String
  sufs : List String
deriving DecidableEq

structure FsPath where
  dir : List String
  name : FileName
deriving DecidableEq

/-- `dirContains r d` holds when directory `r` is an ancestor of `d` or equal
to it, i.e. `r`'s components lead `d`'s.  This is how
`recurse_up_to in template.parents` (main.py line 84) is decided for a
template living in directory `d`, since `Path.parents` of the template file is
exactly the chain of such directories. -/
def dirContains : List String → List String → Bool
  | [], _ => true
  | _ :: _, [] => false
  | a :: as, b :: bs => a == b && dirContains as bs

/-- The candidate file names built by main.py lines 74-79: for each
`i in range(len(template.suffixes))` and each candidate extension `e`,
`Path(basename + ''.join(suffixes[:i+1])).with_suffix(e)` — the stem followed
by the first `i` suffixes followed by `e` (`with_suffix` replaces the last of
the `i+1` joined suffixes). -/
def data_file_names (name : FileName) (extensions : List String) : List FileName :=
  (List.range name.sufs.length).flatMap fun i =>
    extensions.map fun e => ⟨name.stem, name.sufs.take i ++ [e]⟩

/-- The `files_to_check` list of main.py lines 71-90: every candidate name in
the template's parent directory, and — when `recurse_up_to` is given and lies
among the template's parents — every candidate name in each directory strictly
between the template's parent (exclusive) and `recurse_up_to` (inclusive),
which are `recurse_up_to / folder` for `folder` ranging over
`template.parent.relative_to(recurse_up_to).parents`. -/
def candidate_paths (template : FsPath) (extensions : List String)
    (recurse_up_to : Option (List String)) : List FsPath :=
  let names := data_file_names template.name extensions
  let own := names.map fun nm => FsPath.mk template.dir nm
  match recurse_up_to with
  | none => own
  | some rb =>
    if dirContains rb template.dir then
      let rel := template.dir.drop rb.length
      own ++ (List.range rel.length).reverse.flatMap fun k =>
        names.map fun nm => FsPath.mk (rb ++ rel.take k) nm
    else own

/-- main.py lines 43-91: the set of candidate paths that exist as regular
files (`set([file for file in files_to_check if file.is_file()])`). -/
def find_template_companion_files (isFile : FsPath → Bool) (template : FsPath)
    (extensions : List String) (recurse_up_to : Option (List String)) : Finset FsPath :=
  ((candidate_paths template extensions recurse_up_to).filter isFile).toFinset

/-- A parsed data value: Python's JSON/YAML/TOML-style nested data, as
produced by the data-file parse functions. -/
inductive Value where
  | str : String → Value
  | int : Int → Value
  | list : List Value → Value
  | map : List (String × Value) → Value

/-- A Python `dict` with string keys, as an insertion-ordered association
list with unique keys. -/
abbrev Dict := List (String × Value)

/-- Python `d[k] = v`: replace the value at an existing key in place, else
append the new pair at the end. -/
def setKey : Dict → String → Value → Dict
  | [], k, v => [(k, v)]
  | (k0, v0) :: rest, k, v =>
    if k0 = k then (k, v) :: rest else (k0, v0) :: setKey rest k v

/-- Python `d.update(other)`: assign every pair of `other` into `d` in
order — a shallow, top-level merge where `other`'s values replace `d`'s
wholesale. -/
def dictUpdate (d other : Dict) : Dict :=
  other.foldl (fun acc kv => setKey acc kv.1 kv.2) d

/-- Python `d.get(k)` / `d[k]` lookup. -/
def dictGet : Dict → String → Option Value
  | [], _ => none
  | (k0, v) :: rest, k => if k0 = k then some v else dictGet rest k

/-- main.py lines 148-167, `Yasha._load_data_files` (and the identical
`context.update` loop of cli.py lines 194-196): start from `data = {}` and
run `data.update(parsed)` for each file's parse result in order.  Parsing
itself is external; the function is modelled on the list of parsed
mappings. -/
def load_data_files_merge (parsed : List Dict) : Dict :=
  parsed.foldl dictUpdate []

/-- The `--mode` CLI choice (cli.py line 97): pedantic or debug; absent means
the default policy. -/
inductive Mode where
  | pedantic
  | debug
deriving DecidableEq

/-- The three undefined-variable behaviours of the engine, as selected by
util.py lines 108-112 (`StrictUndefined`, `DebugUndefined`, `Undefined`). -/
inductive UndefinedPolicy where
  | strict
  | debugPolicy
  | defaultPolicy
deriving DecidableEq

/-- util.py lines 108-112: the `undefined` table mapping the mode to the
engine undefined class (pedantic to strict, debug to debug, None to the
default); `Yasha.__init__` (main.py lines 133-134) makes the same choice. -/
def undefined_for : Option Mode → UndefinedPolicy
  | some Mode.pedantic => UndefinedPolicy.strict
  | some Mode.debug => UndefinedPolicy.debugPolicy
  | none => UndefinedPolicy.defaultPolicy

/-- A micro-template: literal text interleaved with variable references. -/
inductive Tok where
  | text : String → Tok
  | var : String → Tok

/-- Lookup in the render context (variable name to rendered value). -/
def ctxGet : List (String × String) → String → Option String
  | [], _ => none
  | (k0, v) :: rest, k => if k0 = k then some v else ctxGet rest k

/-- Modelled from the spec: the external templating engine substitutes a
variable reference according to the undefined policy (spec section 4.4) — a
defined variable renders its value; an undefined one renders empty text
(default), renders the literal reference text verbatim (debug), or raises an
UndefinedError whose message names the variable (strict).  The engine itself
is not part of this repository. -/
def renderVar (pol : UndefinedPolicy) (ctx : List (String × String))
    (n : String) : Except String String :=
  match ctxGet ctx n with
  | some v => Except.ok v
  | none =>
    match pol with
    | UndefinedPolicy.strict => Except.error ("'" ++ n ++ "' is undefined")
    | UndefinedPolicy.debugPolicy => Except.ok ("\x7b\x7b " ++ n ++ " \x7d\x7d")
    | UndefinedPolicy.defaultPolicy => Except.ok ""

/-- Render one token: literal text passes through, a variable reference goes
through the undefined policy. -/
def tokRender (pol : UndefinedPolicy) (ctx : List (String × String)) :
    Tok → Except String String
  | Tok.text s => Except.ok s
  | Tok.var n => renderVar pol ctx n

/-- Render a whole template left to right; the first error aborts the
render. -/
def renderToks (pol : UndefinedPolicy) (ctx : List (String × String)) :
    List Tok → Except String String
  | [] => Except.ok ""
  | t :: rest =>
    match tokRender pol ctx t with
    | Except.error e => Except.error e
    | Except.ok s =>
      match renderToks pol ctx rest with
      | Except.error e => Except.error e
      | Except.ok r => Except.ok (s ++ r)

/-- cli.py lines 174-205: the CLI renders with the policy chosen from
`--mode`, and a raised UndefinedError `e` surfaces as the user-facing
failure `"Variable \x7b\x7d".format(e)` (lines 204-205). -/
def cli_render (mode : Option Mode) (ctx : List (String × String))
    (toks : List Tok) : Except String String :=
  match renderToks (undefined_for mode) ctx toks with
  | Except.ok s => Except.ok s
  | Except.error e => Except.error ("Variable " ++ e)

/-- Does the template reference a variable that is missing from the
context? -/
def hasUndef (ctx : List (String × String)) (toks : List Tok) : Bool :=
  toks.any fun t =>
    match t with
    | Tok.var n => (ctxGet ctx n).isNone
    | Tok.text _ => false

/-- Is an `Except` result an error? -/
def isErrB : Except String String → Bool
  | Except.error _ => true
  | Except.ok _ => false

/-- util.py lines 89-94, `realpath` inside `find_referenced_templates`: try
each search path in order; the first path under which the referenced file
exists wins, otherwise None.  A reference is a relative path (directory
components plus file name); `os.path.realpath` is the identity here since
directories are already absolute component lists and links are not
modelled. -/
def realpath_lookup (isFile : FsPath → Bool) (search_path : List (List String))
    (tpl : FsPath) : Option FsPath :=
  match search_path with
  | [] => none
  | p :: rest =>
    if isFile ⟨p ++ tpl.dir, tpl.name⟩ then some ⟨p ++ tpl.dir, tpl.name⟩
    else realpath_lookup isFile rest tpl

/-- util.py lines 79-96, `find_referenced_templates`: the engine extracts the
statically referenced template names, yielding None for dynamic (non-literal)
references; the comprehension
`[realpath(t) for t in referenced_templates if t is not None]` filters the
REFERENCES for None, not the realpath results, so an unresolvable reference
contributes a None ENTRY to the returned list.  Extraction itself is the
external engine; the function is modelled on the extracted list. -/
def find_referenced_templates_util (isFile : FsPath → Bool)
    (referenced : List (Option FsPath)) (search_path : List (List String)) :
    List (Option FsPath) :=
  (referenced.filterMap id).map (realpath_lookup isFile search_path)

/-- main.py lines 316-336, `Yasha.get_makefile_dependencies`: the returned
list is `self.variable_files + self.yasha_extensions_files` followed, for
each literal reference and EVERY loader search path, by
`basepath / relative_path`.  The guard `if template_path.is_file:` tests the
bound method object itself — it is never called — and a bound method is
always truthy in Python, so every combination is appended regardless of
existence and no search path wins over another.  The template path itself is
never added.  (`referenced_template_partials` is the extracted reference
list with falsy entries filtered out, main.py lines 325-327.) -/
def get_makefile_dependencies (variable_files yasha_extensions_files : List FsPath)
    (searchpath : List (List String)) (referenced : List (Option FsPath)) :
    List FsPath :=
  variable_files ++ yasha_extensions_files ++
    (referenced.filterMap id).flatMap fun rel =>
      searchpath.map fun b => ⟨b ++ rel.dir, rel.name⟩

/-- `os.path.relpath` on component lists: strip the common leading
components, then one `..` per remaining component of the start directory
followed by the remaining target components. -/
def relSegs : List String → List String → List String
  | [], d => d
  | _ :: cs, [] => List.replicate (cs.length + 1) ".."
  | c :: cs, d :: ds =>
    if c = d then relSegs cs ds
    else List.replicate (cs.length + 1) ".." ++ (d :: ds)

/-- Print a file name with its dots back in place. -/
def fileNameStr (n : FileName) : String :=
  n.sufs.foldl (fun acc s => acc ++ "." ++ s) n.stem

/-- `os.path.relpath(p)` relative to the working directory `cwd`, printed
with `/` separators, as used for every entry of the -M dependency line. -/
def os_relpath (cwd : List String) (p : FsPath) : String :=
  String.intercalate "/" (relSegs cwd p.dir ++ [fileNameStr p.name])

/-- cli.py lines 149-154: without `-o`, the output file is
`os.path.splitext(template.name)[0]` — the template path with its final
suffix removed. -/
def default_output (template : FsPath) : FsPath :=
  ⟨template.dir, ⟨template.name.stem, template.name.sufs.dropLast⟩⟩

/-- cli.py lines 156-165: the -M and -MD dependency line — relative output path,
a colon, then the template, the `--variables` files, the extension file when
given, and the resolved referenced templates, all as paths relative to the
working directory.  `referenced` holds the already-resolved reference paths
from `util.find_referenced_templates` (in this flow each reference resolves;
an unresolved None entry would instead crash `os.path.relpath`). -/
def cli_makefile_deps_line (cwd : List String) (output template : FsPath)
    (variableFiles : List FsPath) (extensions : Option FsPath)
    (referenced : List FsPath) : String :=
  let deps := [os_relpath cwd template] ++ variableFiles.map (os_relpath cwd) ++
    (match extensions with
      | some e => [os_relpath cwd e]
      | none => []) ++
    referenced.map (os_relpath cwd)
  os_relpath cwd output ++ ": " ++ String.intercalate " " deps

/-- A mutable Python object on the heap: a dict (globals, filters, tests,
parsers — values are parsed data, engine callables are identified by
name-tagged values) or a list of directories (a loader search path). -/
inductive Obj where
  | dictO : Dict → Obj
  | pathsO : List (List String) → Obj

/-- Read a heap object as a dict (dict objects only ever hold dicts). -/
def Obj.asDict : Obj → Dict
  | Obj.dictO d => d
  | Obj.pathsO _ => []

/-- Read a heap object as a search-path list. -/
def Obj.asPaths : Obj → List (List String)
  | Obj.pathsO l => l
  | Obj.dictO _ => []

/-- A store of Python objects: reference identity is what makes mutation
observable, so aliasing versus copying is modelled explicitly. -/
structure Heap where
  next : Nat
  mem : Nat → Obj

/-- Allocate a fresh object (fresh reference, one past every live one). -/
def Heap.alloc (h : Heap) (o : Obj) : Nat × Heap :=
  (h.next, ⟨h.next + 1, fun n => if n = h.next then o else h.mem n⟩)

/-- Mutate the object behind a reference in place. -/
def Heap.write (h : Heap) (r : Nat) (o : Obj) : Heap :=
  ⟨h.next, fun n => if n = r then o else h.mem n⟩

/-- Dereference. -/
def Heap.read (h : Heap) (r : Nat) : Obj := h.mem r

/-- The references a jinja `Environment` holds to its mutable tables:
`env.globals`, `env.filters`, `env.tests` and `env.loader.searchpath`. -/
structure EnvRefs where
  globalsRef : Nat
  filtersRef : Nat
  testsRef : Nat
  searchpathRef : Nat
deriving DecidableEq

/-- A `Yasha` instance: its heap of mutable objects, the base environment's
references and the `self.parsers` reference. -/
structure YashaState where
  heap : Heap
  env : EnvRefs
  parsersRef : Nat

/-- main.py lines 246-255, `Yasha._get_env_for_template` for a Path
template: overlay the base environment, deep-copy `globals`, shallow-copy
`filters` and `tests`, and build a fresh `FileSystemLoader` over a copy of
the base search-path list.  Every copy is a fresh allocation; nested values
are pure data here, so the deep copy of `globals` and the shallow copies
coincide at the cell level (the render only ever mutates cells
top-level). -/
def get_env_for_template (h : Heap) (base : EnvRefs) : EnvRefs × Heap :=
  let a1 := h.alloc (h.read base.globalsRef)
  let a2 := a1.2.alloc (a1.2.read base.filtersRef)
  let a3 := a2.2.alloc (a2.2.read base.testsRef)
  let a4 := a3.2.alloc (a3.2.read base.searchpathRef)
  (⟨a1.1, a2.1, a3.1, a4.1⟩, a4.2)

/-- The in-place mutations the render performs on the overlay (main.py
lines 287-299): the discovered extension files update the overlay's `tests`
and `filters` and the local parsers copy `pr` (via `_load_extensions_file`,
main.py lines 182-211), the discovered data files are merged into the
overlay's `globals` (line 296), and the template's parent directory is
appended to the overlay loader's search path (line 299). -/
def render_mutations (env : EnvRefs) (pr : Nat)
    (extFilters extTests extParsers : Dict) (parsedDataFiles : List Dict)
    (templateParent : List String) (h : Heap) : Heap :=
  let h2 := h.write env.testsRef
    (Obj.dictO (dictUpdate (h.read env.testsRef).asDict extTests))
  let h3 := h2.write env.filtersRef
    (Obj.dictO (dictUpdate (h2.read env.filtersRef).asDict extFilters))
  let h4 := h3.write pr
    (Obj.dictO (dictUpdate (h3.read pr).asDict extParsers))
  let h5 := h4.write env.globalsRef
    (Obj.dictO (dictUpdate (h4.read env.globalsRef).asDict
      (load_data_files_merge parsedDataFiles)))
  h5.write env.searchpathRef
    (Obj.pathsO ((h5.read env.searchpathRef).asPaths ++ [templateParent]))

/-- main.py lines 258-314, `Yasha.render_template` on a Path template, as it
acts on the instance state: derive the overlay environment, copy
`self.parsers` (line 285), let the discovered extension files update the
overlay's tests and filters and the parsers copy (lines 287-291 via
`_load_extensions_file`), merge the discovered data files into the overlay's
globals (lines 293-296), and append the template's parent directory to the
overlay loader's search path (line 299).  File parsing and the final string
render are external; the contributed tables and parsed mappings are inputs.
The instance's own references are returned unchanged, as in the source,
which never rebinds `self.env` or `self.parsers` here. -/
def render_template_state (s : YashaState)
    (extFilters extTests extParsers : Dict) (parsedDataFiles : List Dict)
    (templateParent : List String) : YashaState :=
  let envh := get_env_for_template s.heap s.env
  let prh := envh.2.alloc (envh.2.read s.parsersRef)
  ⟨render_mutations envh.1 prh.1 extFilters extTests extParsers
      parsedDataFiles templateParent prh.2,
    s.env, s.parsersRef⟩

/-- A concrete freshly initialised instance for evaluation: five live cells
(globals, filters, tests, search path, parsers). -/
def exampleYashaState : YashaState :=
  ⟨⟨5, fun _ => Obj.dictO []⟩, ⟨0, 1, 2, 3⟩, 4⟩

/-- util.py lines 56-57: `file.startswith(token)` with
`token = template_basename[0] + '.'`, on dot-component name lists — the
entry has at least two components and its first equals the template's
stem. -/
def startswith_token (tb fp : List String) : Bool :=
  match tb, fp with
  | t0 :: _, f0 :: _ :: _ => t0 == f0
  | _, _ => false

/-- util.py lines 54-70, the body of the legacy generator
`find_template_companion` for one directory: a listing entry `fp` (as
dot-components) is yielded when it starts with the stem token, ends with the
extension (modelled as one suffix component), and for some
`i in range(1, len(template_basename))` the leading components agree
(`template_basename[:-i] == file_parts[:-1]`) — except that inside the
template's own directory the template's own name is skipped
(`if file_parts == template_basename: continue`). -/
def legacy_accepts (tb : List String) (ext : String) (in_template_dir : Bool)
    (fp : List String) : Bool :=
  startswith_token tb fp && fp.getLast? == some ext &&
    ((List.range' 1 (tb.length - 1)).any fun i =>
      tb.take (tb.length - i) == fp.dropLast &&
        !(in_template_dir && fp == tb))

/-- The names the legacy generator yields from one directory listing
(util.py lines 56-70; `sorted` only fixes an order and is dropped for the
membership claims). -/
def legacy_scan_dir (listing : List (List String)) (tb : List String)
    (ext : String) (in_template_dir : Bool) : List (List String) :=
  listing.filter (legacy_accepts tb ext in_template_dir)

example :
    data_file_names ⟨"template", ["sh", "j2"]⟩ ["json", "yaml"] =
      [⟨"template", ["json"]⟩, ⟨"template", ["yaml"]⟩,
       ⟨"template", ["sh", "json"]⟩, ⟨"template", ["sh", "yaml"]⟩] := by
  decide

example : data_file_names ⟨"foo", []⟩ ["json"] = [] := by decide

example :
    candidate_paths ⟨["root", "nested"], ⟨"template", ["sh", "j2"]⟩⟩ ["json"]
        (some ["root"]) =
      [⟨["root", "nested"], ⟨"template", ["json"]⟩⟩,
       ⟨["root", "nested"], ⟨"template", ["sh", "json"]⟩⟩,
       ⟨["root"], ⟨"template", ["json"]⟩⟩,
       ⟨["root"], ⟨"template", ["sh", "json"]⟩⟩] := by
  decide

lemma dirContains_iff (r d : List String) :
    dirContains r d = true ↔ ∃ u, d = r ++ u := by
  induction r generalizing d with
  | nil => simp [dirContains]
  | cons a as ih =>
    cases d with
    | nil => simp [dirContains]
    | cons b bs =>
      simp only [dirContains, Bool.and_eq_true, beq_iff_eq, ih]
      constructor
      · rintro ⟨rfl, u, rfl⟩; exact ⟨u, rfl⟩
      · rintro ⟨u, hu⟩
        obtain ⟨rfl, rfl⟩ : b = a ∧ bs = as ++ u := by
          simpa using congrArg (fun l => (l.head?, l.tail)) hu
        exact ⟨rfl, u, rfl⟩

lemma dirContains_append (r u : List String) : dirContains r (r ++ u) = true :=
  (dirContains_iff r (r ++ u)).2 ⟨u, rfl⟩

lemma mem_data_file_names {name : FileName} {E : List String} {nm : FileName} :
    nm ∈ data_file_names name E ↔
      ∃ i, i < name.sufs.length ∧ ∃ e ∈ E, nm = ⟨name.stem, name.sufs.take i ++ [e]⟩ := by
  simp only [data_file_names, List.mem_flatMap, List.mem_range, List.mem_map]
  constructor
  · rintro ⟨i, hi, e, he, rfl⟩; exact ⟨i, hi, e, he, rfl⟩
  · rintro ⟨i, hi, e, he, rfl⟩; exact ⟨i, hi, e, he, rfl⟩

lemma mem_map_mkpath {d : List String} {names : List FileName} {p : FsPath} :
    p ∈ names.map (fun nm => FsPath.mk d nm) ↔ p.dir = d ∧ p.name ∈ names := by
  obtain ⟨pd, pn⟩ := p
  simp only [List.mem_map, FsPath.mk.injEq]
  constructor
  · rintro ⟨nm, hnm, rfl, rfl⟩
    exact ⟨rfl, hnm⟩
  · rintro ⟨rfl, hn⟩
    exact ⟨pn, hn, rfl, rfl⟩

lemma mem_candidate_paths {t : FsPath} {E : List String}
    {r : Option (List String)} {p : FsPath} :
    p ∈ candidate_paths t E r ↔
      (p.dir = t.dir ∧ p.name ∈ data_file_names t.name E) ∨
      (∃ rb, r = some rb ∧ dirContains rb t.dir = true ∧
        ∃ k, k < (t.dir.drop rb.length).length ∧
          p.dir = rb ++ (t.dir.drop rb.length).take k ∧
          p.name ∈ data_file_names t.name E) := by
  cases r with
  | none =>
    rw [show candidate_paths t E none =
        (data_file_names t.name E).map (fun nm => FsPath.mk t.dir nm) from rfl,
      mem_map_mkpath]
    constructor
    · exact fun h => Or.inl h
    · rintro (h | ⟨rb, hrb, _⟩)
      · exact h
      · cases hrb
  | some rb =>
    by_cases hrb : dirContains rb t.dir = true
    · rw [show candidate_paths t E (some rb) =
          (data_file_names t.name E).map (fun nm => FsPath.mk t.dir nm) ++
            (List.range (t.dir.drop rb.length).length).reverse.flatMap
              (fun k => (data_file_names t.name E).map
                (fun nm => FsPath.mk (rb ++ (t.dir.drop rb.length).take k) nm))
          from by simp [candidate_paths, hrb]]
      rw [List.mem_append, mem_map_mkpath]
      constructor
      · rintro (h | h)
        · exact Or.inl h
        · obtain ⟨k, hk, hp⟩ := List.mem_flatMap.1 h
          rw [mem_map_mkpath] at hp
          rw [List.mem_reverse, List.mem_range] at hk
          exact Or.inr ⟨rb, rfl, hrb, k, hk, hp.1, hp.2⟩
      · rintro (h | ⟨rb2, hrb2, _, k, hk, hdir, hnm⟩)
        · exact Or.inl h
        · obtain rfl : rb2 = rb := by injection hrb2 with h0; exact h0.symm
          refine Or.inr (List.mem_flatMap.2 ⟨k, ?_, ?_⟩)
          · rw [List.mem_reverse, List.mem_range]; exact hk
          · rw [mem_map_mkpath]; exact ⟨hdir, hnm⟩
    · rw [show candidate_paths t E (some rb) =
          (data_file_names t.name E).map (fun nm => FsPath.mk t.dir nm)
          from by simp [candidate_paths, hrb]]
      rw [mem_map_mkpath]
      constructor
      · exact fun h => Or.inl h
      · rintro (h | ⟨rb2, hrb2, hc, _⟩)
        · exact h
        · obtain rfl : rb2 = rb := by injection hrb2 with h0; exact h0.symm
          exact absurd hc hrb

lemma mem_find_template_companion_files {isFile : FsPath → Bool} {t : FsPath}
    {E : List String} {r : Option (List String)} {p : FsPath} :
    p ∈ find_template_companion_files isFile t E r ↔
      p ∈ candidate_paths t E r ∧ isFile p = true := by
  simp [find_template_companion_files, List.mem_filter]

/-- C1: every path returned by `find_template_companion_files` exists as a
regular file according to the file-system oracle, shares the template's stem
(the first dot-separated component of its filename), and ends with one of the
candidate extensions; the result is a `Finset`, so order and duplicates do
not arise. -/
theorem find_companions_sound (isFile : FsPath → Bool) (t : FsPath)
    (E : List String) (r : Option (List String)) (p : FsPath)
    (hp : p ∈ find_template_companion_files isFile t E r) :
    isFile p = true ∧ p.name.stem = t.name.stem ∧
      ∃ e ∈ E, p.name.sufs.getLast? = some e := by
  rw [mem_find_template_companion_files] at hp
  obtain ⟨hc, hf⟩ := hp
  refine ⟨hf, ?_⟩
  rw [mem_candidate_paths] at hc
  have hname : p.name ∈ data_file_names t.name E := by
    rcases hc with ⟨_, h⟩ | ⟨_, _, _, _, _, _, h⟩ <;> exact h
  rw [mem_data_file_names] at hname
  obtain ⟨i, hi, e, he, hn⟩ := hname
  rw [hn]
  exact ⟨rfl, e, he, List.getLast?_concat _⟩

theorem find_companions_sound_witness :
    (fun q => decide (q = (⟨["d"], ⟨"t", ["json"]⟩⟩ : FsPath)))
        (⟨["d"], ⟨"t", ["json"]⟩⟩ : FsPath) = true ∧
      (FileName.mk "t" ["json"]).stem = (FileName.mk "t" ["j2"]).stem ∧
      ∃ e ∈ ["json"], (FileName.mk "t" ["json"]).sufs.getLast? = some e :=
  find_companions_sound (fun q => decide (q = ⟨["d"], ⟨"t", ["json"]⟩⟩))
    ⟨["d"], ⟨"t", ["j2"]⟩⟩ ["json"] none ⟨["d"], ⟨"t", ["json"]⟩⟩ (by decide)

/-- C2 counterexample: for template `root/nested/template.sh.j2` with root
boundary `root` and candidate extension `.json`, the file
`root/template.sh.json` — stem plus the non-empty suffix-chain piece `.sh`
plus the candidate extension, sitting in an ancestor directory — IS returned,
contrary to the claim that ancestor directories are only searched for
suffix-chain-stripped names. -/
theorem ancestor_search_cex :
    (⟨["root"], ⟨"template", ["sh", "json"]⟩⟩ : FsPath) ∈
      find_template_companion_files
        (fun p => decide (p = ⟨["root"], ⟨"template", ["sh", "json"]⟩⟩))
        ⟨["root", "nested"], ⟨"template", ["sh", "j2"]⟩⟩ ["json"]
        (some ["root"]) := by
  decide

/-- C2 amended: when the root boundary is an ancestor of the template's
directory, every ancestor directory (strictly above the template's parent, at
or below the boundary) is searched for the full candidate-name set — stem
plus any leading piece of the suffix chain plus candidate extension — and any
such existing file is returned. -/
theorem ancestor_search_full_candidate_set (isFile : FsPath → Bool)
    (t : FsPath) (E : List String) (rb : List String) (k : Nat) (nm : FileName)
    (h1 : dirContains rb t.dir = true)
    (h2 : k < (t.dir.drop rb.length).length)
    (h3 : nm ∈ data_file_names t.name E)
    (h4 : isFile ⟨rb ++ (t.dir.drop rb.length).take k, nm⟩ = true) :
    (⟨rb ++ (t.dir.drop rb.length).take k, nm⟩ : FsPath) ∈
      find_template_companion_files isFile t E (some rb) := by
  rw [mem_find_template_companion_files]
  refine ⟨?_, h4⟩
  rw [mem_candidate_paths]
  exact Or.inr ⟨rb, rfl, h1, k, h2, rfl, h3⟩

theorem ancestor_search_full_candidate_set_witness :
    dirContains ["root"] ["root", "nested"] = true ∧
      (⟨["root"], ⟨"template", ["sh", "json"]⟩⟩ : FsPath) ∈
        find_template_companion_files
          (fun p => decide (p = ⟨["root"], ⟨"template", ["sh", "json"]⟩⟩))
          ⟨["root", "nested"], ⟨"template", ["sh", "j2"]⟩⟩ ["json"]
          (some ["root"]) :=
  ⟨by decide,
    ancestor_search_full_candidate_set
      (fun p => decide (p = ⟨["root"], ⟨"template", ["sh", "json"]⟩⟩))
      ⟨["root", "nested"], ⟨"template", ["sh", "j2"]⟩⟩ ["json"] ["root"] 0
      ⟨"template", ["sh", "json"]⟩ (by decide) (by decide) (by decide) (by decide)⟩

/-- C3: companion discovery never leaves the root boundary's subtree — if a
boundary is given and is an ancestor-or-equal of the template's directory,
every returned path's directory is at or below the boundary; and when no
boundary is given, or the boundary is not a strict ancestor of the template's
parent (it is the parent itself, or lies outside), every returned path comes
from the template's own directory. -/
theorem companion_search_bounded (isFile : FsPath → Bool) (t : FsPath)
    (E : List String) (r : Option (List String)) (p : FsPath)
    (hp : p ∈ find_template_companion_files isFile t E r) :
    (∀ rb, r = some rb → dirContains rb t.dir = true →
      dirContains rb p.dir = true) ∧
    ((r = none ∨ ∃ rb, r = some rb ∧
        (dirContains rb t.dir = false ∨ rb = t.dir)) → p.dir = t.dir) := by
  rw [mem_find_template_companion_files, mem_candidate_paths] at hp
  rcases hp.1 with ⟨hdir, _⟩ | ⟨rb0, hr, hcont, k, hk, hdir, _⟩
  · constructor
    · intro rb _ hc
      rw [hdir]
      exact hc
    · intro _
      exact hdir
  · constructor
    · intro rb hrb _
      rw [hr] at hrb
      injection hrb with h0
      rw [hdir, ← h0]
      exact dirContains_append _ _
    · rintro (h | ⟨rb, hrb, hcase⟩)
      · rw [hr] at h
        cases h
      · rw [hr] at hrb
        injection hrb with h0
        cases h0
        rcases hcase with hfalse | heq
        · rw [hcont] at hfalse
          cases hfalse
        · rw [heq, List.drop_length] at hk
          cases hk
  
theorem companion_search_bounded_witness :
    ((⟨["root"], ⟨"template", ["json"]⟩⟩ : FsPath) ∈
      find_template_companion_files
        (fun p => decide (p = ⟨["root"], ⟨"template", ["json"]⟩⟩))
        ⟨["root", "nested"], ⟨"template", ["j2"]⟩⟩ ["json"] (some ["root"])) ∧
    ((∀ rb, (some ["root"] : Option (List String)) = some rb →
        dirContains rb ["root", "nested"] = true →
        dirContains rb ["root"] = true) ∧
      ((some ["root"] = (none : Option (List String)) ∨
        ∃ rb, (some ["root"] : Option (List String)) = some rb ∧
          (dirContains rb ["root", "nested"] = false ∨ rb = ["root", "nested"])) →
        (["root"] : List String) = ["root", "nested"])) :=
  ⟨by decide,
    companion_search_bounded
      (fun p => decide (p = ⟨["root"], ⟨"template", ["json"]⟩⟩))
      ⟨["root", "nested"], ⟨"template", ["j2"]⟩⟩ ["json"] (some ["root"])
      ⟨["root"], ⟨"template", ["json"]⟩⟩ (by decide)⟩

/-- C4 counterexample: for a template whose filename has an empty suffix
chain (no dots after the stem), the candidate list is empty — the existing
file `d/foo.json` is NOT returned for template `d/foo` even though `.json` is
a candidate extension, contrary to the claim that the empty prefix always
contributes stem + extension. -/
theorem suffixless_template_cex :
    (⟨["d"], ⟨"foo", ["json"]⟩⟩ : FsPath) ∉
      find_template_companion_files
        (fun p => decide (p = ⟨["d"], ⟨"foo", ["json"]⟩⟩))
        ⟨["d"], ⟨"foo", []⟩⟩ ["json"] none := by
  decide

/-- C4 amended: the candidate set searched in the template's own directory is
exactly the names stem + p + e with p a STRICT leading piece of the suffix
chain (the empty piece included when the chain is non-empty) and e a
candidate extension; a template with an empty suffix chain therefore has no
candidates at all, and the full suffix chain itself never yields one. -/
theorem own_dir_candidate_names (t : FsPath) (E : List String) (nm : FileName) :
    FsPath.mk t.dir nm ∈ candidate_paths t E none ↔
      ∃ i, i < t.name.sufs.length ∧
        ∃ e ∈ E, nm = ⟨t.name.stem, t.name.sufs.take i ++ [e]⟩ := by
  rw [show candidate_paths t E none =
      (data_file_names t.name E).map (fun nm => FsPath.mk t.dir nm) from rfl,
    mem_map_mkpath]
  simp [mem_data_file_names]

lemma dictGet_setKey (d : Dict) (k : String) (v : Value) (k2 : String) :
    dictGet (setKey d k v) k2 = if k = k2 then some v else dictGet d k2 := by
  induction d with
  | nil => simp [setKey, dictGet]
  | cons kv rest ih =>
    obtain ⟨k0, v0⟩ := kv
    by_cases h0 : k0 = k
    · subst h0
      by_cases h2 : k0 = k2
      · subst h2
        simp [setKey, dictGet]
      · simp [setKey, dictGet, h2]
    · by_cases h2 : k0 = k2
      · subst h2
        have hne : ¬ k = k0 := fun h => h0 h.symm
        simp [setKey, dictGet, h0, hne]
      · simp [setKey, dictGet, h0, h2, ih]

lemma dictGet_eq_none (d : Dict) (k : String) (h : k ∉ d.map Prod.fst) :
    dictGet d k = none := by
  induction d with
  | nil => rfl
  | cons kv rest ih =>
    obtain ⟨k0, v0⟩ := kv
    simp only [List.map_cons, List.mem_cons, not_or] at h
    have : ¬ k0 = k := fun he => h.1 he.symm
    simp [dictGet, this, ih h.2]

lemma dictGet_dictUpdate (d other : Dict) (k : String)
    (h : (other.map Prod.fst).Nodup) :
    dictGet (dictUpdate d other) k =
      match dictGet other k with
      | some v => some v
      | none => dictGet d k := by
  induction other generalizing d with
  | nil => simp [dictUpdate, dictGet]
  | cons kv rest ih =>
    obtain ⟨k0, v0⟩ := kv
    simp only [List.map_cons, List.nodup_cons] at h
    rw [show dictUpdate d ((k0, v0) :: rest) = dictUpdate (setKey d k0 v0) rest from rfl,
      ih _ h.2]
    by_cases hkk : k0 = k
    · subst hkk
      rw [dictGet_eq_none rest k0 h.1]
      simp [dictGet, dictGet_setKey]
    · simp only [dictGet, hkk, if_false]
      cases dictGet rest k with
      | none => simp [dictGet_setKey, hkk]
      | some v => rfl

lemma dictGet_foldl_update (parsed : List Dict) (init : Dict) (k : String)
    (h : ∀ d ∈ parsed, (d.map Prod.fst).Nodup) :
    dictGet (parsed.foldl dictUpdate init) k =
      parsed.foldl (fun acc d => match dictGet d k with
        | some v => some v
        | none => acc) (dictGet init k) := by
  induction parsed generalizing init with
  | nil => rfl
  | cons d rest ih =>
    rw [List.foldl_cons, List.foldl_cons,
      ih (dictUpdate init d) (fun x hx => h x (List.mem_cons_of_mem _ hx)),
      dictGet_dictUpdate init d k (h d (List.mem_cons_self _ _))]

lemma foldl_lookup_none (ms : List Dict) (k : String) (acc : Option Value)
    (h : ∀ d ∈ ms, dictGet d k = none) :
    ms.foldl (fun acc d => match dictGet d k with
      | some v => some v
      | none => acc) acc = acc := by
  induction ms generalizing acc with
  | nil => rfl
  | cons d rest ih =>
    rw [List.foldl_cons, h d (List.mem_cons_self _ _)]
    exact ih _ (fun x hx => h x (List.mem_cons_of_mem _ hx))

/-- C5: context merging is a left fold with whole-value top-level
replacement.  If a key is supplied by mapping `d` and by no later mapping,
the merged context maps it to exactly `d`'s value; and for
`A = [k: [x: 1]]`, `B = [k: [y: 2]]` the merge of `[A, B]` holds `[y: 2]` at
`k` — the later nested mapping replaces the earlier one outright, with no
recursive merge. -/
theorem merge_last_writer_wins :
    (∀ (ms1 ms2 : List Dict) (d : Dict) (k : String) (v : Value),
      (∀ x ∈ ms1 ++ d :: ms2, (x.map Prod.fst).Nodup) →
      dictGet d k = some v →
      (∀ d2 ∈ ms2, dictGet d2 k = none) →
      dictGet (load_data_files_merge (ms1 ++ d :: ms2)) k = some v) ∧
    dictGet (load_data_files_merge
        [[("k", Value.map [("x", Value.int 1)])],
         [("k", Value.map [("y", Value.int 2)])]]) "k" =
      some (Value.map [("y", Value.int 2)]) := by
  constructor
  · intro ms1 ms2 d k v hnd hd hlater
    rw [load_data_files_merge, dictGet_foldl_update _ _ _ hnd, List.foldl_append,
      List.foldl_cons, hd]
    exact foldl_lookup_none ms2 k (some v) hlater
  · rfl

theorem merge_last_writer_wins_witness :
    (∀ x ∈ [[("a", Value.int 1)]] ++ [("a", Value.int 2)] :: [],
      (x.map Prod.fst).Nodup) ∧
    dictGet (load_data_files_merge [[("a", Value.int 1)], [("a", Value.int 2)]])
        "a" = some (Value.int 2) :=
  ⟨by simp, merge_last_writer_wins.1 [[("a", Value.int 1)]] []
    [("a", Value.int 2)] "a" (Value.int 2) (by simp) rfl (by simp)⟩


lemma isErrB_renderToks (pol : UndefinedPolicy) (ctx : List (String × String))
    (toks : List Tok) :
    isErrB (renderToks pol ctx toks) =
      (decide (pol = UndefinedPolicy.strict) && hasUndef ctx toks) := by
  induction toks with
  | nil => simp [renderToks, isErrB, hasUndef]
  | cons t rest ih =>
    have hrest : hasUndef ctx (t :: rest) =
        ((match t with
          | Tok.var n => (ctxGet ctx n).isNone
          | Tok.text _ => false) || hasUndef ctx rest) := by
      simp [hasUndef]
    cases t with
    | text s =>
      rw [show renderToks pol ctx (Tok.text s :: rest) =
          (match renderToks pol ctx rest with
            | Except.error e => Except.error e
            | Except.ok r => Except.ok (s ++ r)) from rfl, hrest]
      cases hrec : renderToks pol ctx rest with
      | error e =>
        rw [hrec] at ih
        simp [isErrB] at ih ⊢
        simp [← ih]
      | ok r =>
        rw [hrec] at ih
        simp [isErrB] at ih ⊢
        exact ih
    | var n =>
      rw [hrest]
      cases hget : ctxGet ctx n with
      | some v =>
        rw [show renderToks pol ctx (Tok.var n :: rest) =
            (match renderVar pol ctx n with
              | Except.error e => Except.error e
              | Except.ok s =>
                match renderToks pol ctx rest with
                | Except.error e => Except.error e
                | Except.ok r => Except.ok (s ++ r)) from rfl,
          show renderVar pol ctx n = Except.ok v from by simp [renderVar, hget]]
        cases hrec : renderToks pol ctx rest with
        | error e =>
          rw [hrec] at ih
          simp [isErrB, hget] at ih ⊢
          simp [← ih]
        | ok r =>
          rw [hrec] at ih
          simp [isErrB, hget] at ih ⊢
          exact ih
      | none =>
        rw [show renderToks pol ctx (Tok.var n :: rest) =
            (match renderVar pol ctx n with
              | Except.error e => Except.error e
              | Except.ok s =>
                match renderToks pol ctx rest with
                | Except.error e => Except.error e
                | Except.ok r => Except.ok (s ++ r)) from rfl]
        cases pol with
        | strict => simp [renderVar, hget, isErrB]
        | debugPolicy =>
          rw [show renderVar UndefinedPolicy.debugPolicy ctx n =
              Except.ok ("\x7b\x7b " ++ n ++ " \x7d\x7d") from by
                simp [renderVar, hget]]
          cases hrec : renderToks UndefinedPolicy.debugPolicy ctx rest with
          | error e =>
            rw [hrec] at ih
            simp [isErrB] at ih
          | ok r => simp [isErrB]
        | defaultPolicy =>
          rw [show renderVar UndefinedPolicy.defaultPolicy ctx n =
              Except.ok "" from by simp [renderVar, hget]]
          cases hrec : renderToks UndefinedPolicy.defaultPolicy ctx rest with
          | error e =>
            rw [hrec] at ih
            simp [isErrB] at ih
          | ok r => simp [isErrB]

lemma isErrB_cli_render (mode : Option Mode) (ctx : List (String × String))
    (toks : List Tok) :
    isErrB (cli_render mode ctx toks) =
      isErrB (renderToks (undefined_for mode) ctx toks) := by
  rw [cli_render]
  cases renderToks (undefined_for mode) ctx toks <;> rfl

/-- C6: the render fails because of an undefined variable exactly when the
mode is pedantic and the template references a variable missing from the
context; the user-facing message then names the variable (for `foo`:
`Variable 'foo' is undefined`).  In default mode an undefined variable
renders as empty text and in debug mode as the literal reference text, and
those two modes never fail. -/
theorem undefined_variable_policy (mode : Option Mode)
    (ctx : List (String × String)) (toks : List Tok) :
    (isErrB (cli_render mode ctx toks) = true ↔
      mode = some Mode.pedantic ∧ hasUndef ctx toks = true) ∧
    (∀ n, ctxGet ctx n = none →
      cli_render (some Mode.pedantic) ctx [Tok.var n] =
        Except.error ("Variable '" ++ n ++ "' is undefined")) ∧
    (∀ n, ctxGet ctx n = none →
      cli_render none ctx [Tok.var n] = Except.ok "") ∧
    (∀ n, ctxGet ctx n = none →
      cli_render (some Mode.debug) ctx [Tok.var n] =
        Except.ok ("\x7b\x7b " ++ n ++ " \x7d\x7d")) := by
  refine ⟨?_, ?_, ?_, ?_⟩
  · rw [isErrB_cli_render, isErrB_renderToks]
    cases mode with
    | none => simp [undefined_for]
    | some m => cases m <;> simp [undefined_for]
  · intro n hget
    simp [cli_render, renderToks, tokRender, renderVar, undefined_for, hget,
      isErrB]
    rfl
  · intro n hget
    simp [cli_render, renderToks, tokRender, renderVar, undefined_for, hget]
  · intro n hget
    simp [cli_render, renderToks, tokRender, renderVar, undefined_for, hget]

theorem undefined_variable_policy_witness :
    ctxGet [] "foo" = none ∧
      cli_render (some Mode.pedantic) [] [Tok.var "foo"] =
        Except.error "Variable 'foo' is undefined" :=
  ⟨rfl, (undefined_variable_policy (some Mode.pedantic) [] [Tok.var "foo"]).2.1
    "foo" rfl⟩

/-- C7: evaluating both dependency-resolution implementations at a failing
input.  For a template referencing `missing.j2inc` that exists under no
search path, `util.find_referenced_templates` returns `[None]` — a
placeholder entry, not a silently dropped reference (cli.py then crashes on
`os.path.relpath(None)`), and `Yasha.get_makefile_dependencies` appends
`basepath / reference` for every search path without ever calling
`is_file`, so its entries need not exist on disk. -/
theorem dependency_resolution_code_eval :
    find_referenced_templates_util (fun _ => false)
        [some ⟨[], ⟨"missing", ["j2inc"]⟩⟩] [["work"]] = [none] ∧
      get_makefile_dependencies [] [] [["work"], ["other"]]
          [some ⟨[], ⟨"missing", ["j2inc"]⟩⟩] =
        [⟨["work"], ⟨"missing", ["j2inc"]⟩⟩,
         ⟨["other"], ⟨"missing", ["j2inc"]⟩⟩] :=
  ⟨rfl, rfl⟩

/-- C8 counterexample: `Yasha.get_makefile_dependencies` does not begin with
the template path — it never contains it at all.  For template
`w/foo.c.jinja` with data file `w/foo.json` and one resolved reference, the
returned list has no entry for the template. -/
theorem makefile_deps_template_missing_cex :
    (⟨["w"], ⟨"foo", ["c", "jinja"]⟩⟩ : FsPath) ∉
      get_makefile_dependencies [⟨["w"], ⟨"foo", ["json"]⟩⟩] []
        [["w"]] [some ⟨[], ⟨"header", ["j2inc"]⟩⟩] := by
  decide

/-- C8 amended: the CLI's -M flow does order the line as template, then
variable files, then extension file, then referenced sub-templates — the
scenario's stdout is exactly `foo.c: foo.c.jinja foo.json header.j2inc` —
whereas the library-level `Yasha.get_makefile_dependencies` returns variable
files, extension files and references only, omitting the template itself. -/
theorem makefile_deps_cli_scenario :
    cli_makefile_deps_line ["w"]
        (default_output ⟨["w"], ⟨"foo", ["c", "jinja"]⟩⟩)
        ⟨["w"], ⟨"foo", ["c", "jinja"]⟩⟩
        [⟨["w"], ⟨"foo", ["json"]⟩⟩] none
        ((find_referenced_templates_util
            (fun p => decide (p = ⟨["w"], ⟨"header", ["j2inc"]⟩⟩))
            [some ⟨[], ⟨"header", ["j2inc"]⟩⟩] [["w"]]).filterMap id) =
      "foo.c: foo.c.jinja foo.json header.j2inc" := by
  rfl

lemma read_write_ne (h : Heap) (w : Nat) (o : Obj) (r : Nat)
    (hne : ¬ r = w) : (h.write w o).read r = h.read r := by
  simp only [Heap.write, Heap.read]
  exact if_neg hne

lemma read_alloc_lt (h : Heap) (o : Obj) (r : Nat) (hr : r < h.next) :
    (h.alloc o).2.read r = h.read r := by
  simp only [Heap.alloc, Heap.read]
  exact if_neg (Nat.ne_of_lt hr)

lemma render_mutations_read (env : EnvRefs) (pr : Nat) (ef et ep : Dict)
    (pd : List Dict) (tp : List String) (h : Heap) (r : Nat)
    (e1 : ¬ r = env.testsRef) (e2 : ¬ r = env.filtersRef) (e3 : ¬ r = pr)
    (e4 : ¬ r = env.globalsRef) (e5 : ¬ r = env.searchpathRef) :
    (render_mutations env pr ef et ep pd tp h).read r = h.read r := by
  simp only [render_mutations]
  rw [read_write_ne _ _ _ _ e5, read_write_ne _ _ _ _ e4,
    read_write_ne _ _ _ _ e3, read_write_ne _ _ _ _ e2,
    read_write_ne _ _ _ _ e1]

lemma get_env_read_lt (h : Heap) (b : EnvRefs) (r : Nat) (hr : r < h.next) :
    (get_env_for_template h b).2.read r = h.read r := by
  simp only [get_env_for_template]
  rw [read_alloc_lt, read_alloc_lt, read_alloc_lt, read_alloc_lt] <;>
    first
      | exact hr
      | (simp only [Heap.alloc]; omega)

lemma render_template_state_read (s : YashaState) (ef et ep : Dict)
    (pd : List Dict) (tp : List String) (r : Nat) (hr : r < s.heap.next) :
    (render_template_state s ef et ep pd tp).heap.read r = s.heap.read r := by
  have hg4 : (get_env_for_template s.heap s.env).1.globalsRef =
      s.heap.next := rfl
  have hf4 : (get_env_for_template s.heap s.env).1.filtersRef =
      s.heap.next + 1 := rfl
  have ht4 : (get_env_for_template s.heap s.env).1.testsRef =
      s.heap.next + 2 := rfl
  have hs4 : (get_env_for_template s.heap s.env).1.searchpathRef =
      s.heap.next + 3 := rfl
  have hp4 : ((get_env_for_template s.heap s.env).2.alloc
      ((get_env_for_template s.heap s.env).2.read s.parsersRef)).1 =
    s.heap.next + 4 := rfl
  have hn4 : (get_env_for_template s.heap s.env).2.next =
      s.heap.next + 4 := rfl
  have step1 : (render_template_state s ef et ep pd tp).heap =
      render_mutations (get_env_for_template s.heap s.env).1
        ((get_env_for_template s.heap s.env).2.alloc
          ((get_env_for_template s.heap s.env).2.read s.parsersRef)).1
        ef et ep pd tp
        ((get_env_for_template s.heap s.env).2.alloc
          ((get_env_for_template s.heap s.env).2.read s.parsersRef)).2 := rfl
  rw [step1,
    render_mutations_read _ _ _ _ _ _ _ _ _
      (by rw [ht4]; omega) (by rw [hf4]; omega) (by rw [hp4]; omega)
      (by rw [hg4]; omega) (by rw [hs4]; omega),
    read_alloc_lt _ _ _ (by rw [hn4]; omega),
    get_env_read_lt _ _ _ hr]

/-- C9: rendering one Path template leaves the base configuration of the
instance untouched — the base environment references and parsers reference
are returned unchanged, and the objects behind the base globals, filters,
tests, search-path and parsers references hold exactly the same contents
after the render as before, whatever extension tables, data files and
template directory the render brought in.  The render works on a fresh
overlay (freshly allocated copies), so nothing can leak into a later render
that starts again from the base. -/
theorem render_preserves_base_config (s : YashaState)
    (extFilters extTests extParsers : Dict) (parsedDataFiles : List Dict)
    (templateParent : List String)
    (hg : s.env.globalsRef < s.heap.next)
    (hf : s.env.filtersRef < s.heap.next)
    (ht : s.env.testsRef < s.heap.next)
    (hs : s.env.searchpathRef < s.heap.next)
    (hp : s.parsersRef < s.heap.next) :
    (render_template_state s extFilters extTests extParsers parsedDataFiles
        templateParent).env = s.env ∧
    (render_template_state s extFilters extTests extParsers parsedDataFiles
        templateParent).parsersRef = s.parsersRef ∧
    (render_template_state s extFilters extTests extParsers parsedDataFiles
        templateParent).heap.read s.env.globalsRef =
      s.heap.read s.env.globalsRef ∧
    (render_template_state s extFilters extTests extParsers parsedDataFiles
        templateParent).heap.read s.env.filtersRef =
      s.heap.read s.env.filtersRef ∧
    (render_template_state s extFilters extTests extParsers parsedDataFiles
        templateParent).heap.read s.env.testsRef =
      s.heap.read s.env.testsRef ∧
    (render_template_state s extFilters extTests extParsers parsedDataFiles
        templateParent).heap.read s.env.searchpathRef =
      s.heap.read s.env.searchpathRef ∧
    (render_template_state s extFilters extTests extParsers parsedDataFiles
        templateParent).heap.read s.parsersRef = s.heap.read s.parsersRef := by
  exact ⟨rfl, rfl,
    render_template_state_read s extFilters extTests extParsers
      parsedDataFiles templateParent _ hg,
    render_template_state_read s extFilters extTests extParsers
      parsedDataFiles templateParent _ hf,
    render_template_state_read s extFilters extTests extParsers
      parsedDataFiles templateParent _ ht,
    render_template_state_read s extFilters extTests extParsers
      parsedDataFiles templateParent _ hs,
    render_template_state_read s extFilters extTests extParsers
      parsedDataFiles templateParent _ hp⟩


theorem render_preserves_base_config_witness :
    exampleYashaState.env.globalsRef < exampleYashaState.heap.next ∧
      (render_template_state exampleYashaState [("f", Value.int 1)]
          [("t", Value.int 2)] [("p", Value.int 3)]
          [[("k", Value.int 4)]] ["tpl"]).heap.read
          exampleYashaState.env.globalsRef =
        exampleYashaState.heap.read exampleYashaState.env.globalsRef :=
  ⟨by decide,
    (render_preserves_base_config exampleYashaState [("f", Value.int 1)]
      [("t", Value.int 2)] [("p", Value.int 3)] [[("k", Value.int 4)]] ["tpl"]
      (by decide) (by decide) (by decide) (by decide) (by decide)).2.2.1⟩

/-- C10: the new companion finder never excludes the template file itself —
whenever the template exists and its own name is among the constructed
candidate names (for instance `foo.sh.json` with `.json` a candidate
extension), the template's own path is in the returned set; the legacy
generator `find_template_companion`, by contrast, never yields the
template's own name when scanning the template's directory. -/
theorem companion_includes_template_itself :
    (∀ (isFile : FsPath → Bool) (t : FsPath) (E : List String)
        (r : Option (List String)),
      isFile t = true → t.name ∈ data_file_names t.name E →
      t ∈ find_template_companion_files isFile t E r) ∧
    (∀ (listing : List (List String)) (tb : List String) (ext : String),
      tb ∉ legacy_scan_dir listing tb ext true) := by
  constructor
  · intro isFile t E r hf hn
    rw [mem_find_template_companion_files]
    refine ⟨?_, hf⟩
    rw [mem_candidate_paths]
    exact Or.inl ⟨rfl, hn⟩
  · intro listing tb ext hmem
    have h2 := (List.mem_filter.1 hmem).2
    simp [legacy_accepts] at h2

theorem companion_includes_template_itself_witness :
    ((fun p => decide (p = (⟨["d"], ⟨"foo", ["sh", "json"]⟩⟩ : FsPath)))
        (⟨["d"], ⟨"foo", ["sh", "json"]⟩⟩ : FsPath) = true) ∧
      (FileName.mk "foo" ["sh", "json"] ∈
        data_file_names ⟨"foo", ["sh", "json"]⟩ ["json"]) ∧
      ((⟨["d"], ⟨"foo", ["sh", "json"]⟩⟩ : FsPath) ∈
        find_template_companion_files
          (fun p => decide (p = ⟨["d"], ⟨"foo", ["sh", "json"]⟩⟩))
          ⟨["d"], ⟨"foo", ["sh", "json"]⟩⟩ ["json"] none) :=
  ⟨by decide, by decide,
    companion_includes_template_itself.1
      (fun p => decide (p = ⟨["d"], ⟨"foo", ["sh", "json"]⟩⟩))
      ⟨["d"], ⟨"foo", ["sh", "json"]⟩⟩ ["json"] none (by decide) (by decide)⟩
